import Mathlib

/-!
Verification of the multi-account AWS resource-collection pipeline
(isms-automation): credential delegation, per-service collection and
normalization, error-isolated orchestration, and the service classifier
from exporters/sheets_updater.py.

Conventions of the shallow embedding:
- Python dicts whose values are strings are embedded as association lists
  List (String × String), first binding wins, preserving insertion order.
- dict.get(k, d) becomes an association-list lookup with default d.
- Python exceptions become Except String values; a caught exception is a
  matched .error branch.
- Python string truthiness (non-empty) is modelled as inequality with "".
- The unbounded while-True pagination loop is embedded with explicit fuel:
  a result of none means the loop is still running after that many
  iterations (the source loop has no cap of its own).
-/

/-- ASCII lowercasing over the underlying character list, the effect of
the Python str.lower() calls on these ASCII field names and values. -/
def pyLower (s : String) : String :=
  String.mk (s.data.map Char.toLower)

/-- Substring containment, the semantics of the Python `needle in hay`
test on strings: some index of hay starts with needle. -/
def strContains (hay needle : String) : Bool :=
  (List.range (hay.data.length + 1)).any (fun i => needle.data.isPrefixOf (hay.data.drop i))

/-- Association-list lookup modelling Python dict access: first binding
for the key, if any. -/
def dictFind (row : List (String × String)) (k : String) : Option String :=
  (row.find? (fun p => p.fst = k)).map Prod.snd

/-- dict.get(k, d): lookup with default. -/
def dictGetD (row : List (String × String)) (k d : String) : String :=
  (dictFind row k).getD d

/-- classify_service_by_columns from exporters/sheets_updater.py
(lines 110-124): lowercases the column names of the batch and applies
the fixed priority order bucket > instance > database/rds/db >
workspace > unknown, first match winning. -/
def classify_service_by_columns (cols : List String) : String :=
  let columns := cols.map pyLower
  if columns.any (fun col => strContains col "bucket") then "s3"
  else if columns.any (fun col => strContains col "instance") then "ec2"
  else if columns.any (fun col => strContains col "database" || strContains col "rds" || strContains col "db") then "rds"
  else if columns.any (fun col => strContains col "workspace") then "workspaces"
  else "unknown"

/-- The value_str computed inside the heuristic loop of
classify_service_by_data: str(value).lower() when the value is truthy
and not the literal string nan, else the empty string. -/
def heuristicValueStr (v : String) : String :=
  if v ≠ "" && v ≠ "nan" then pyLower v else ""

/-- One iteration body of the heuristic (field name, value) scan of
classify_service_by_data (sheets_updater.py lines 149-171): returns the
service decided by this pair, or none to move to the next pair. -/
def classifyPair (k v : String) : Option String :=
  let keyLower := pyLower k
  let valueStr := heuristicValueStr v
  if strContains keyLower "instanceid" && valueStr ≠ "" && valueStr ≠ "nan" then some "ec2"
  else if strContains keyLower "instance" && (strContains valueStr "i-" || strContains valueStr "ami-") then some "ec2"
  else if strContains keyLower "bucketname" && valueStr ≠ "" && valueStr ≠ "nan" then some "s3"
  else if strContains keyLower "bucket" || (strContains valueStr "bucket" && strContains valueStr "amazonaws.com") then some "s3"
  else if (["database", "rds", "mysql", "postgres", "oracle"].any (fun t => strContains keyLower t)) && valueStr ≠ "" then some "rds"
  else if strContains keyLower "workspace" && valueStr ≠ "" then some "workspaces"
  else none

/-- The heuristic for-loop over the row items, in insertion order:
first pair that decides wins, otherwise unknown. -/
def classifyScan : List (String × String) → String
  | [] => "unknown"
  | (k, v) :: rest =>
    match classifyPair k v with
    | some s => s
    | none => classifyScan rest

/-- The resource_type branch of classify_service_by_data
(sheets_updater.py lines 137-146). Returns none when the keyword match
falls through (the Python code then continues into the heuristic scan). -/
def classifyResourceType (resource_type : String) : Option String :=
  if strContains resource_type "bucket" || strContains resource_type "s3" then some "s3"
  else if strContains resource_type "instance" || strContains resource_type "ec2" then some "ec2"
  else if strContains resource_type "database" || strContains resource_type "rds" || strContains resource_type "db" then some "rds"
  else if strContains resource_type "workspace" then some "workspaces"
  else none

/-- The resource_type step of classify_service_by_data: when a truthy
resource_type field matches a keyword, its service; otherwise fall
through to the heuristic scan of the whole row. -/
def classifyAfterService (row : List (String × String)) : String :=
  match dictFind row "resource_type" with
  | some v =>
    if v ≠ "" then
      match classifyResourceType (pyLower v) with
      | some s => s
      | none => classifyScan row
    else classifyScan row
  | none => classifyScan row

/-- The service-field step of classify_service_by_data: a truthy,
non-nan service field wins, lowercased. -/
def classifyAfterServiceTag (row : List (String × String)) : String :=
  match dictFind row "service" with
  | some v =>
    if v ≠ "" && pyLower v ≠ "nan" then pyLower v
    else classifyAfterService row
  | none => classifyAfterService row

/-- classify_service_by_data from exporters/sheets_updater.py
(lines 126-173): explicit service-type tag first, then the service
field, then the resource_type keyword match, then the heuristic scan
of all (field name, value) pairs, else unknown. -/
def classify_service_by_data (row : List (String × String)) : String :=
  match dictFind row "_service_type" with
  | some v =>
    if v ≠ "" && pyLower v ≠ "nan" then pyLower v
    else classifyAfterServiceTag row
  | none => classifyAfterServiceTag row


/-- A normalized resource row: field name to value, in insertion order. -/
abbrev Row : Type := List (String × String)

/-- One parsed account entry as produced by parse_aws_accounts in
main.py: account_id, role_arn, session_name, external_id. An empty
external_id stands for the Python falsy values None and the empty
string. -/
structure AccountTarget where
  account_id : String
  role_arn : String
  session_name : String
  external_id : String
deriving Repr, DecidableEq

/-- The four service variants instantiated by setup_services. -/
inductive SKind where
  | workspaces
  | ec2
  | s3
  | rds
deriving Repr, DecidableEq

/-- get_service_name of each variant (services/ *.py). -/
def serviceName : SKind → String
  | .workspaces => "workspaces"
  | .ec2 => "ec2"
  | .s3 => "s3"
  | .rds => "rds"

/-- get_sheet_name of each variant (services/ *.py). -/
def sheetName : SKind → String
  | .workspaces => "WorkSpaces"
  | .ec2 => "EC2_Instances"
  | .s3 => "S3_Buckets"
  | .rds => "RDS_Instances"

/-- A service instance as held by the orchestrator: the identity state
set by AWSServiceBase.__init__ (region, account_id, client = None) plus
the variant. The client, once configured, is abstracted by the outcome
its collect_data call would have: raise (error) or return rows. -/
structure ServiceInst where
  kind : SKind
  region : String
  account_id : String
  client : Option (Except String (List Row))
deriving Repr

/-- The dictionary returned by AWSServiceBase.get_data_with_metadata,
and also built by the except branch of collect_all_data. The success
path of get_data_with_metadata has no error key: error = none. -/
structure CollectionResult where
  service : String
  sheet_name : String
  region : String
  account_id : String
  data : List Row
  count : Nat
  error : Option String
deriving Repr, DecidableEq

/-- AWSServiceBase.get_data_with_metadata (services/base.py lines
59-73): raises when no client is configured, otherwise runs
collect_data (whose raising propagates) and returns the metadata
dictionary with count = len(data) and no error key. -/
def get_data_with_metadata (svc : ServiceInst) : Except String CollectionResult :=
  match svc.client with
  | none => .error (serviceName svc.kind ++ " 클라이언트가 설정되지 않았습니다.")
  | some behavior =>
    match behavior with
    | .error e => .error e
    | .ok rows =>
      .ok { service := serviceName svc.kind
            sheet_name := sheetName svc.kind
            region := svc.region
            account_id := svc.account_id
            data := rows
            count := rows.length
            error := none }

/-- The error-path dictionary appended by collect_all_data when a
service raises (main.py lines 195-206): empty data, count 0, error set. -/
def errorResult (svc : ServiceInst) (e : String) : CollectionResult :=
  { service := serviceName svc.kind
    sheet_name := sheetName svc.kind
    region := svc.region
    account_id := svc.account_id
    data := []
    count := 0
    error := some e }

/-- collect_all_data (main.py lines 172-208): iterate the service list
in order; on success append the metadata dictionary, on any exception
append the error dictionary and continue with the remaining services. -/
def collect_all_data : List ServiceInst → List CollectionResult
  | [] => []
  | svc :: rest =>
    match get_data_with_metadata svc with
    | .ok r => r :: collect_all_data rest
    | .error e => errorResult svc e :: collect_all_data rest

/-- The assume_role invocation recorded when setup_service_auth runs
for one service instance: setup_with_role (services/base.py lines
49-57) calls assume_role(role_arn, session_name, external_id,
self.region) exactly once. -/
structure AssumeCall where
  role_arn : String
  session_name : String
  external_id : Option String
  region : String
deriving Repr, DecidableEq

/-- setup_service_auth (main.py lines 155-169) as the assume_role call
it performs for a service in the given region: with a truthy
external_id the cross-account form passes it along, otherwise the
plain form leaves the assume_role default None. -/
def assumeCallOf (acct : AccountTarget) (region : String) : AssumeCall :=
  if acct.external_id ≠ "" then
    { role_arn := acct.role_arn
      session_name := acct.session_name
      external_id := some acct.external_id
      region := region }
  else
    { role_arn := acct.role_arn
      session_name := acct.session_name
      external_id := none
      region := region }

/-- A freshly constructed and authenticated service instance: __init__
stores region and account_id, setup_service_auth installs the client.
The environment env supplies the behavior of the client built for
(kind, region, account). -/
def mkService (env : SKind → String → String → Except String (List Row))
    (kind : SKind) (region : String) (acct : AccountTarget) : ServiceInst :=
  { kind := kind
    region := region
    account_id := acct.account_id
    client := some (env kind region acct.account_id) }

/-- setup_services (main.py lines 117-152) with the service selection
already parsed: for every account, one S3 instance on regions[0] when
s3 is selected (global service), then per configured region a
WorkSpaces, an EC2 and an RDS instance when each is selected, in that
order. Every constructed instance is authenticated on the spot. -/
def setup_services (env : SKind → String → String → Except String (List Row))
    (accounts : List AccountTarget) (selected_services : List String)
    (regions : List String) : List ServiceInst :=
  accounts.flatMap (fun acct =>
    (if "s3" ∈ selected_services then [mkService env .s3 (regions.headD "") acct] else [])
    ++ regions.flatMap (fun region =>
      (if "workspaces" ∈ selected_services then [mkService env .workspaces region acct] else [])
      ++ (if "ec2" ∈ selected_services then [mkService env .ec2 region acct] else [])
      ++ (if "rds" ∈ selected_services then [mkService env .rds region acct] else [])))

/-- The sequence of assume_role invocations performed while
setup_services runs: setup_service_auth is called once per constructed
service instance, at construction time, with that instance's region. -/
def assume_trace (accounts : List AccountTarget) (selected_services : List String)
    (regions : List String) : List AssumeCall :=
  accounts.flatMap (fun acct =>
    (if "s3" ∈ selected_services then [assumeCallOf acct (regions.headD "")] else [])
    ++ regions.flatMap (fun region =>
      (if "workspaces" ∈ selected_services then [assumeCallOf acct region] else [])
      ++ (if "ec2" ∈ selected_services then [assumeCallOf acct region] else [])
      ++ (if "rds" ∈ selected_services then [assumeCallOf acct region] else [])))

/-- Number of enabled regional services: of workspaces, ec2 and rds,
those present in the selection. -/
def regionalCount (selected_services : List String) : Nat :=
  (if "workspaces" ∈ selected_services then 1 else 0)
  + (if "ec2" ∈ selected_services then 1 else 0)
  + (if "rds" ∈ selected_services then 1 else 0)

/-- Number of enabled global services: s3 is the only global service. -/
def globalCount (selected_services : List String) : Nat :=
  if "s3" ∈ selected_services then 1 else 0

/-- Normalization of one raw workspace dictionary
(services/workspaces.py lines 33-39): exactly four output fields, each
defaulting to the empty string when the remote key is absent. -/
def ws_normalize (workspace : Row) : Row :=
  [("WorkspaceID", dictGetD workspace "WorkspaceId" ""),
   ("UserName", dictGetD workspace "UserName" ""),
   ("ComputerName", dictGetD workspace "ComputerName" ""),
   ("IPAddress", dictGetD workspace "IpAddress" "")]

/-- One describe_workspaces response: the Workspaces list (default
empty) and the optional NextToken. -/
structure WSResponse where
  workspaces : List Row
  nextToken : Option String

/-- Python truthiness of the continuation token: the loop stops when
the response carries no NextToken or an empty one. -/
def tokenFalsy : Option String → Bool
  | none => true
  | some t => t = ""

/-- The while-True pagination loop of WorkSpacesService.collect_data
(services/workspaces.py lines 18-46), with explicit fuel standing for
the number of iterations still allowed to run: the source loop has no
cap, so a none result means it is still running after that many calls.
The client maps the NextToken parameter of the call (none on the first
call) to the raising or returned response; no exception handler exists
in this variant, so a raise propagates. Returns the collected rows and
the number of listing calls issued. -/
def ws_collect_loop (client : Option String → Except String WSResponse) :
    Nat → Option String → List Row → Nat → Option (Except String (List Row) × Nat)
  | 0, _, _, _ => none
  | fuel + 1, tok, results, calls =>
    match client tok with
    | .error e => some (.error e, calls + 1)
    | .ok resp =>
      let results2 := results ++ resp.workspaces.map ws_normalize
      if tokenFalsy resp.nextToken then some (.ok results2, calls + 1)
      else ws_collect_loop client fuel resp.nextToken results2 (calls + 1)

/-- WorkSpacesService.collect_data: run the pagination loop from an
absent token with empty accumulated results. -/
def ws_collect_data (client : Option String → Except String WSResponse) (fuel : Nat) :
    Option (Except String (List Row) × Nat) :=
  ws_collect_loop client fuel none [] 0

/-- The Name-tag scan shared by EC2Service.collect_data (lines 29-34)
and RDSService.collect_data (lines 38-42): first tag whose Key is
Name, its Value defaulting to the empty string; the empty string when
no tag matches. Each tag is its (Key, Value) pair of optional values. -/
def findNameTag : List (Option String × Option String) → String
  | [] => ""
  | (k, v) :: rest => if k = some "Name" then v.getD "" else findNameTag rest

/-- One raw EC2 instance, holding exactly the keys
EC2Service.collect_data reads; a none field is an absent key.
availabilityZone stands for the nested Placement.AvailabilityZone
lookup with its empty-dict then empty-string defaults. The
SecurityGroups the source also reads are dropped here because the
produced record never contains them. -/
structure EC2RawInstance where
  availabilityZone : Option String
  instanceId : Option String
  tags : List (Option String × Option String)
  platform : Option String
  privateIpAddress : Option String
  publicIpAddress : Option String

/-- One reservation of a describe_instances response. -/
structure EC2Reservation where
  instances : List EC2RawInstance

/-- One describe_instances response. -/
structure EC2Response where
  reservations : List EC2Reservation

/-- Normalization of one raw EC2 instance (services/ec2.py lines
41-49): seven output fields; absent values default to the empty
string, except Platform which defaults to Linux. -/
def ec2_normalize (account_id : String) (inst : EC2RawInstance) : Row :=
  [("AccountID", account_id),
   ("AvailabilityZone", inst.availabilityZone.getD ""),
   ("InstanceID", inst.instanceId.getD ""),
   ("Name", findNameTag inst.tags),
   ("Platform", inst.platform.getD "Linux"),
   ("PrivateIPAddress", inst.privateIpAddress.getD ""),
   ("PublicIPAddress", inst.publicIpAddress.getD "")]

/-- EC2Service.collect_data (services/ec2.py lines 18-55): the single
describe_instances call is wrapped in a bare except that prints and
returns the rows accumulated so far, which are none because the call
comes first — so a raising client yields the empty list, never an
exception. -/
def ec2_collect_data (account_id : String) (describe_instances : Except String EC2Response) :
    List Row :=
  match describe_instances with
  | .error _ => []
  | .ok resp => resp.reservations.flatMap (fun rsv => rsv.instances.map (ec2_normalize account_id))

/-- One raw S3 bucket entry: Name and CreationDate (the source
stringifies the date; it is carried here as a string already). -/
structure S3Bucket where
  name : Option String
  creationDate : Option String

/-- One list_buckets response. -/
structure S3Response where
  buckets : List S3Bucket

/-- Normalization of one bucket (services/s3.py lines 26-34). -/
def s3_normalize (account_id : String) (bucket : S3Bucket) : Row :=
  [("AccountID", account_id),
   ("BucketName", bucket.name.getD ""),
   ("CreationDate", bucket.creationDate.getD "")]

/-- S3Service.collect_data (services/s3.py lines 18-40): like EC2, the
bare except turns any raise of the single list_buckets call into an
empty result list. -/
def s3_collect_data (account_id : String) (list_buckets : Except String S3Response) :
    List Row :=
  match list_buckets with
  | .error _ => []
  | .ok resp => resp.buckets.map (s3_normalize account_id)

/-- One raw RDS instance, holding the keys RDSService.collect_data
reads into its record; endpointAddress and endpointPort stand for the
nested Endpoint.Address and Endpoint.Port lookups. The numeric Port
and BackupRetentionPeriod cells are carried as decimal strings. The
DBSubnetGroup, VpcSecurityGroups and ReadReplicaDBInstanceIdentifiers
reads of the source are dropped because the produced record never
contains them. -/
structure RDSRawInstance where
  dbInstanceArn : Option String
  availabilityZone : Option String
  dbClusterIdentifier : Option String
  engine : Option String
  engineVersion : Option String
  endpointAddress : Option String
  endpointPort : Option Nat
  backupRetentionPeriod : Option Nat

/-- One describe_db_instances response. -/
structure RDSResponse where
  dbInstances : List RDSRawInstance

/-- Normalization of one raw RDS instance (services/rds.py lines
26-72), including the per-record secondary tag lookup: with a truthy
DBInstanceArn, list_tags_for_resource is called and its failure is
swallowed by the inner except, leaving the Name tag empty; the record
is emitted either way, with the found Name tag as its InstanceID cell. -/
def rds_normalize (account_id : String)
    (list_tags : String → Except String (List (Option String × Option String)))
    (inst : RDSRawInstance) : Row :=
  let db_arn := inst.dbInstanceArn.getD ""
  let name_tag :=
    if db_arn ≠ "" then
      match list_tags db_arn with
      | .ok tagList => findNameTag tagList
      | .error _ => ""
    else ""
  [("AccountID", account_id),
   ("AvailabilityZone", inst.availabilityZone.getD ""),
   ("ClusterID", inst.dbClusterIdentifier.getD ""),
   ("InstanceID", name_tag),
   ("Engine", inst.engine.getD ""),
   ("RDS", "RDS"),
   ("EngineVersion", inst.engineVersion.getD ""),
   ("Endpoint", inst.endpointAddress.getD ""),
   ("Port", (inst.endpointPort.map Nat.repr).getD ""),
   ("BackupRetentionPeriod", Nat.repr (inst.backupRetentionPeriod.getD 0))]

/-- RDSService.collect_data (services/rds.py lines 18-78): the outer
bare except turns any raise of the primary describe_db_instances call
into an empty result list; per-record tag-lookup failures are handled
inside rds_normalize and never reach it. -/
def rds_collect_data (account_id : String)
    (describe_db_instances : Except String RDSResponse)
    (list_tags : String → Except String (List (Option String × Option String))) :
    List Row :=
  match describe_db_instances with
  | .error _ => []
  | .ok resp => resp.dbInstances.map (rds_normalize account_id list_tags)

/-- Fixture token for the scripted paginated client: page index i is
encoded as i repetitions of one character, so the token for any page
after the first is non-empty (truthy). -/
def pageToken (i : Nat) : String := String.mk (List.replicate i 'p')

/-- Page index encoded by a fixture token. -/
def scriptTokenIdx : Option String → Nat
  | none => 0
  | some s => s.data.length

/-- Scripted paginated client: serves page i of the script for the
token encoding i, attaching a continuation token exactly while further
pages remain. A script of length T + 1 returns a token T times before
omitting it. -/
def scriptClient (pages : List (List Row)) (tok : Option String) : Except String WSResponse :=
  let i := scriptTokenIdx tok
  .ok { workspaces := pages.getD i []
        nextToken := if i + 1 < pages.length then some (pageToken (i + 1)) else none }

/-- The always-token client: every response carries a further
continuation token. -/
def alwaysTokenClient (_ : Option String) : Except String WSResponse :=
  .ok { workspaces := [], nextToken := some "p" }

/-- Divergence of the pagination loop on a client, expressed in the
fuel embedding: for every amount of fuel the loop is still running. -/
def wsLoopDiverges (client : Option String → Except String WSResponse) : Prop :=
  ∀ fuel : Nat, ws_collect_data client fuel = none

/-- The raw workspace fixture: a remote record that does carry State,
BundleId and DirectoryId values. -/
def sampleWSRaw : Row :=
  [("WorkspaceId", "ws-0f1"), ("UserName", "alice"), ("ComputerName", "WSAMZN-1"),
   ("IpAddress", "10.0.0.5"), ("State", "AVAILABLE"), ("BundleId", "wsb-1"),
   ("DirectoryId", "d-90"), ("AccountID", "123456789012")]

/-- A fixture continuation token for page k: absent for the first
page, the non-empty encoded token otherwise. -/
def fixtureToken (k : Nat) : Option String :=
  if k = 0 then none else some (pageToken k)

theorem collect_all_data_length : ∀ svcs : List ServiceInst,
    (collect_all_data svcs).length = svcs.length
  | [] => rfl
  | svc :: rest => by
    unfold collect_all_data
    cases get_data_with_metadata svc <;>
      simp [collect_all_data_length rest]

/-- C7: classify_service_by_columns applies the fixed priority order
bucket > instance > database/rds/db > workspace > unknown over the
lowercased column names, first match winning, so a batch whose columns
include both bucket_name and instance_type classifies as s3. -/
theorem C7_columns_priority (cols : List String)
    (h1 : "bucket_name" ∈ cols) (h2 : "instance_type" ∈ cols) :
    classify_service_by_columns cols = "s3" := by
  have hb : (cols.map pyLower).any (fun col => strContains col "bucket") = true :=
    List.any_eq_true.mpr ⟨pyLower "bucket_name", List.mem_map_of_mem pyLower h1, by decide⟩
  simp only [classify_service_by_columns, hb, if_true]

theorem C7_columns_priority_witness :
    "bucket_name" ∈ ["bucket_name", "instance_type"]
    ∧ "instance_type" ∈ ["bucket_name", "instance_type"]
    ∧ classify_service_by_columns ["bucket_name", "instance_type"] = "s3" :=
  ⟨by decide, by decide,
   C7_columns_priority ["bucket_name", "instance_type"] (by decide) (by decide)⟩

/-- C8 counterexample: a record holding the instance-id-shaped value
i-0abc123 under the field name foo, with no explicit service tag, does
not classify as ec2 — the heuristic scan requires the field name
itself to contain instance — so the record classifies as unknown. -/
theorem C8_counterexample :
    classify_service_by_data [("foo", "i-0abc123")] ≠ "ec2"
    ∧ classify_service_by_data [("foo", "i-0abc123")] = "unknown" := by
  exact ⟨by decide, by decide⟩

/-- C8 amended: a record with no explicit service tag holding the
value i-0abc123 under a field name whose lowercase form contains the
substring instance classifies as ec2; under a field name without the
service keywords the heuristic returns unknown instead. -/
theorem C8_instance_value_classification (k : String)
    (hk : strContains (pyLower k) "instance" = true)
    (h1 : k ≠ "_service_type") (h2 : k ≠ "service") (h3 : k ≠ "resource_type") :
    classify_service_by_data [(k, "i-0abc123")] = "ec2" := by
  have hfind : ∀ key, k ≠ key → dictFind [(k, "i-0abc123")] key = none := by
    intro key hne
    simp [dictFind, List.find?, hne]
  have hval : heuristicValueStr "i-0abc123" = "i-0abc123" := by decide
  have hscan : classifyScan [(k, "i-0abc123")] = "ec2" := by
    unfold classifyScan classifyPair
    simp only [hval]
    by_cases hid : strContains (pyLower k) "instanceid" = true
    · simp [hid]
    · simp only [Bool.not_eq_true] at hid
      simp [hid, hk, show strContains "i-0abc123" "i-" = true by decide]
  simp only [classify_service_by_data, classifyAfterServiceTag, classifyAfterService,
    hfind "_service_type" h1, hfind "service" h2, hfind "resource_type" h3]
  exact hscan

theorem C8_instance_value_classification_witness :
    strContains (pyLower "instance_name") "instance" = true
    ∧ classify_service_by_data [("instance_name", "i-0abc123")] = "ec2" :=
  ⟨by decide,
   C8_instance_value_classification "instance_name" (by decide) (by decide) (by decide) (by decide)⟩

/-- C4 counterexample: an unrecoverable error in the primary listing
call of EC2Service.collect_data does not make collect fail with a
CollectionError (no such wrapper exists in the code); the bare except
swallows it and collect returns normally with the empty row list. -/
theorem C4_counterexample :
    ec2_collect_data "123456789012" (.error "AccessDenied") = [] := rfl

/-- C4 amended: EC2, S3 and RDS swallow any error of their primary
listing call and return the rows collected so far, which are none;
WorkSpaces has no handler, so the original exception propagates
unwrapped after exactly one call; RDS per-record tag-lookup failures
are swallowed, every record is still emitted and its InstanceID cell
(the Name tag) is left empty. -/
theorem C4_error_handling :
    (∀ acct e, ec2_collect_data acct (.error e) = [])
    ∧ (∀ acct e, s3_collect_data acct (.error e) = [])
    ∧ (∀ acct e tl, rds_collect_data acct (.error e) tl = [])
    ∧ (∀ e fuel, ws_collect_data (fun _ => .error e) (fuel + 1) = some (.error e, 1))
    ∧ (∀ acct resp e, rds_collect_data acct (.ok resp) (fun _ => .error e)
        = resp.dbInstances.map (rds_normalize acct (fun _ => .error e)))
    ∧ (∀ acct e inst, inst.dbInstanceArn.getD "" ≠ "" →
        dictFind (rds_normalize acct (fun _ => .error e) inst) "InstanceID" = some "") := by
  refine ⟨fun _ _ => rfl, fun _ _ => rfl, fun _ _ _ => rfl, fun _ _ => rfl, fun _ _ _ => rfl, ?_⟩
  intro acct e inst harn
  simp [rds_normalize, dictFind, List.find?, harn]

theorem C4_error_handling_witness :
    (⟨some "arn:aws:rds:us-east-1:1:db:d", none, none, none, none, none, none,
        none⟩ : RDSRawInstance).dbInstanceArn.getD "" ≠ ""
    ∧ dictFind (rds_normalize "123456789012" (fun _ => .error "Throttling")
        ⟨some "arn:aws:rds:us-east-1:1:db:d", none, none, none, none, none, none, none⟩)
        "InstanceID" = some "" :=
  ⟨by decide,
   C4_error_handling.2.2.2.2.2 "123456789012" "Throttling"
     ⟨some "arn:aws:rds:us-east-1:1:db:d", none, none, none, none, none, none, none⟩
     (by decide)⟩

/-- C6 counterexample: the Virtual-Desktop normalization keeps only
WorkspaceID, UserName, ComputerName and IPAddress; a raw workspace
carrying State, BundleId, DirectoryId and AccountID values yields a
record whose mapping omits those four fields entirely. -/
theorem C6_counterexample :
    (ws_normalize sampleWSRaw).map Prod.fst
      = ["WorkspaceID", "UserName", "ComputerName", "IPAddress"]
    ∧ dictFind (ws_normalize sampleWSRaw) "State" = none
    ∧ dictFind (ws_normalize sampleWSRaw) "BundleId" = none
    ∧ dictFind (ws_normalize sampleWSRaw) "DirectoryId" = none
    ∧ dictFind (ws_normalize sampleWSRaw) "AccountID" = none := by
  exact ⟨by decide, by decide, by decide, by decide, by decide⟩

/-- C6 amended: every normalized Virtual-Desktop record contains
exactly the fields WorkspaceID, UserName, ComputerName and IPAddress
(not the eight of the claim), and every normalized Compute-Instance
record contains exactly AccountID, AvailabilityZone, InstanceID, Name,
Platform, PrivateIPAddress and PublicIPAddress; absent remote values
map to the empty string and are never omitted from the mapping, except
that an absent EC2 Platform maps to Linux. -/
theorem C6_normalization_fields :
    (∀ raw : Row, (ws_normalize raw).map Prod.fst
      = ["WorkspaceID", "UserName", "ComputerName", "IPAddress"])
    ∧ (∀ acct inst, (ec2_normalize acct inst).map Prod.fst
      = ["AccountID", "AvailabilityZone", "InstanceID", "Name", "Platform",
         "PrivateIPAddress", "PublicIPAddress"])
    ∧ ws_normalize [] = [("WorkspaceID", ""), ("UserName", ""), ("ComputerName", ""),
        ("IPAddress", "")]
    ∧ ∀ acct, ec2_normalize acct ⟨none, none, [], none, none, none⟩
      = [("AccountID", acct), ("AvailabilityZone", ""), ("InstanceID", ""), ("Name", ""),
         ("Platform", "Linux"), ("PrivateIPAddress", ""), ("PublicIPAddress", "")] :=
  ⟨fun _ => rfl, fun _ _ => rfl, rfl, fun _ => rfl⟩

theorem pageToken_ne_empty (k : Nat) : pageToken (k + 1) ≠ "" := by
  intro h
  have hdata := congrArg String.data h
  simp [pageToken] at hdata

theorem scriptTokenIdx_fixtureToken (k : Nat) : scriptTokenIdx (fixtureToken k) = k := by
  cases k with
  | zero => rfl
  | succ n => simp [fixtureToken, scriptTokenIdx, pageToken]

theorem scriptClient_loop (pages : List (List Row)) :
    ∀ d k acc calls, k + (d + 1) = pages.length →
    ws_collect_loop (scriptClient pages) (d + 1) (fixtureToken k) acc calls
      = some (.ok (acc ++ (pages.drop k).flatMap (fun p => p.map ws_normalize)),
              calls + (d + 1)) := by
  intro d
  induction d with
  | zero =>
    intro k acc calls hk
    have hklt : k < pages.length := by omega
    have hnotlt : ¬ k + 1 < pages.length := by omega
    have hdrop : pages.drop k = pages.getD k [] :: pages.drop (k + 1) := by
      rw [List.getD_eq_getElem pages [] hklt]
      exact List.drop_eq_getElem_cons hklt
    have hdrop2 : pages.drop (k + 1) = [] := by
      apply List.drop_eq_nil_of_le
      omega
    unfold ws_collect_loop
    simp [scriptClient, scriptTokenIdx_fixtureToken, hnotlt, tokenFalsy, hdrop, hdrop2]
  | succ n ih =>
    intro k acc calls hk
    have hklt : k < pages.length := by omega
    have hlt : k + 1 < pages.length := by omega
    have hdrop : pages.drop k = pages.getD k [] :: pages.drop (k + 1) := by
      rw [List.getD_eq_getElem pages [] hklt]
      exact List.drop_eq_getElem_cons hklt
    have hrec := ih (k + 1) (acc ++ (pages.getD k []).map ws_normalize) (calls + 1) (by omega)
    have htok : fixtureToken (k + 1) = some (pageToken (k + 1)) := by
      simp [fixtureToken]
    rw [htok] at hrec
    unfold ws_collect_loop
    simp only [scriptClient, scriptTokenIdx_fixtureToken, hlt, if_true, if_pos]
    simp only [tokenFalsy, decide_eq_true_eq]
    rw [if_neg (by simp [pageToken_ne_empty k])]
    rw [hrec, hdrop]
    simp only [List.flatMap_cons, List.append_assoc]
    congr 2
    omega

/-- C5 amended: against a paginated fixture whose responses carry a
continuation token T times before omitting it (a script of T + 1
pages), WorkSpacesService.collect_data terminates, issues exactly
T + 1 listing calls and aggregates all pages normalized records in
order; but the loop terminates only because the token goes absent —
the source has no maximum iteration cap (see the counterexample). -/
theorem C5_pagination_terminates (pages : List (List Row)) (T : Nat)
    (hT : pages.length = T + 1) :
    ws_collect_data (scriptClient pages) (T + 1)
      = some (.ok (pages.flatMap (fun p => p.map ws_normalize)), T + 1) := by
  have h := scriptClient_loop pages T 0 [] 0 (by omega)
  simpa [ws_collect_data, fixtureToken] using h

theorem C5_pagination_terminates_witness :
    ([[[("WorkspaceId", "ws-1")]], [[("WorkspaceId", "ws-2")]]] : List (List Row)).length = 1 + 1
    ∧ ws_collect_data (scriptClient [[[("WorkspaceId", "ws-1")]], [[("WorkspaceId", "ws-2")]]]) (1 + 1)
      = some (.ok ([[[("WorkspaceId", "ws-1")]], [[("WorkspaceId", "ws-2")]]].flatMap
          (fun p => p.map ws_normalize)), 1 + 1) :=
  ⟨by decide,
   C5_pagination_terminates [[[("WorkspaceId", "ws-1")]], [[("WorkspaceId", "ws-2")]]] 1 rfl⟩

/-- C5 counterexample: there is no maximum iteration cap in
WorkSpacesService.collect_data — against a client whose every response
carries a continuation token, the page loop is still running after
every finite number of iterations. -/
theorem C5_counterexample : wsLoopDiverges alwaysTokenClient := by
  have h : ∀ fuel tok acc calls,
      ws_collect_loop alwaysTokenClient fuel tok acc calls = none := by
    intro fuel
    induction fuel with
    | zero => intro tok acc calls; rfl
    | succ n ih =>
      intro tok acc calls
      simp [ws_collect_loop, alwaysTokenClient, tokenFalsy, ih]
  intro fuel
  exact h fuel none [] 0

theorem tri_flatMap_length {α β : Type} (c₁ c₂ c₃ : Prop)
    [Decidable c₁] [Decidable c₂] [Decidable c₃] (f g h : α → β) :
    ∀ l : List α,
    (l.flatMap (fun x =>
      (if c₁ then [f x] else []) ++ (if c₂ then [g x] else []) ++ (if c₃ then [h x] else []))).length
      = l.length * ((if c₁ then 1 else 0) + (if c₂ then 1 else 0) + (if c₃ then 1 else 0))
  | [] => by simp
  | x :: xs => by
    rw [List.flatMap_cons, List.length_append, tri_flatMap_length c₁ c₂ c₃ f g h xs]
    simp [apply_ite List.length, Nat.succ_mul]
    omega

theorem setup_services_length (env : SKind → String → String → Except String (List Row))
    (sel : List String) :
    ∀ (accounts : List AccountTarget) (regions : List String),
    (setup_services env accounts sel regions).length
      = accounts.length * (globalCount sel + regions.length * regionalCount sel)
  | [], regions => by simp [setup_services]
  | a :: accts, regions => by
    have hrest := setup_services_length env sel accts regions
    unfold setup_services at hrest ⊢
    rw [List.flatMap_cons, List.length_append, List.length_append, hrest, tri_flatMap_length]
    have h1 : (if "s3" ∈ sel then [mkService env .s3 (regions.headD "") a] else []).length
        = globalCount sel := by
      simp [globalCount, apply_ite List.length]
    have h2 : ((if "workspaces" ∈ sel then 1 else 0) + (if "ec2" ∈ sel then 1 else 0)
        + (if "rds" ∈ sel then 1 else 0)) = regionalCount sel := rfl
    rw [h1, h2, List.length_cons, Nat.succ_mul]
    ring

theorem assume_trace_length (sel : List String) :
    ∀ (accounts : List AccountTarget) (regions : List String),
    (assume_trace accounts sel regions).length
      = accounts.length * (globalCount sel + regions.length * regionalCount sel)
  | [], regions => by simp [assume_trace]
  | a :: accts, regions => by
    have hrest := assume_trace_length sel accts regions
    unfold assume_trace at hrest ⊢
    rw [List.flatMap_cons, List.length_append, List.length_append, hrest, tri_flatMap_length]
    have h1 : (if "s3" ∈ sel then [assumeCallOf a (regions.headD "")] else []).length
        = globalCount sel := by
      simp [globalCount, apply_ite List.length]
    have h2 : ((if "workspaces" ∈ sel then 1 else 0) + (if "ec2" ∈ sel then 1 else 0)
        + (if "rds" ∈ sel then 1 else 0)) = regionalCount sel := rfl
    rw [h1, h2, List.length_cons, Nat.succ_mul]
    ring

/-- C1: over N accounts, M configured regions and a service selection
with K enabled regional services and G enabled global services, the
orchestrator builds one unit per (account, region, regional service)
and one per (account, global service) on regions[0], and the
aggregated output of collect_all_data holds exactly
N * M * K + N * G CollectionResults. -/
theorem C1_matrix_expansion (env : SKind → String → String → Except String (List Row))
    (accounts : List AccountTarget) (sel regions : List String)
    (hreg : regions ≠ []) :
    (collect_all_data (setup_services env accounts sel regions)).length
      = accounts.length * regions.length * regionalCount sel
        + accounts.length * globalCount sel
    ∧ ∀ svc ∈ setup_services env accounts sel regions,
        svc.kind = .s3 → svc.region = regions.headD "" := by
  constructor
  · rw [collect_all_data_length, setup_services_length]
    ring
  · intro svc hsvc hkind
    simp only [setup_services, List.mem_flatMap, List.mem_append] at hsvc
    obtain ⟨acct, -, hsvc⟩ := hsvc
    rcases hsvc with h | ⟨region, -, (h | h) | h⟩
    · by_cases hs3 : "s3" ∈ sel
      · simp only [hs3, if_true, List.mem_singleton] at h
        rw [h]
        rfl
      · simp [hs3] at h
    · by_cases hc : "workspaces" ∈ sel
      · simp only [hc, if_true, List.mem_singleton] at h
        rw [h] at hkind
        exact absurd hkind (by simp [mkService])
      · simp [hc] at h
    · by_cases hc : "ec2" ∈ sel
      · simp only [hc, if_true, List.mem_singleton] at h
        rw [h] at hkind
        exact absurd hkind (by simp [mkService])
      · simp [hc] at h
    · by_cases hc : "rds" ∈ sel
      · simp only [hc, if_true, List.mem_singleton] at h
        rw [h] at hkind
        exact absurd hkind (by simp [mkService])
      · simp [hc] at h

theorem C1_matrix_expansion_witness :
    (["us-east-1", "ap-northeast-2", "eu-west-1"] : List String) ≠ []
    ∧ (collect_all_data (setup_services (fun _ _ _ => .ok [])
        [⟨"111111111111", "arn:aws:iam::111111111111:role/R1", "isms", ""⟩,
         ⟨"222222222222", "arn:aws:iam::222222222222:role/R2", "isms", ""⟩]
        ["ec2", "s3"] ["us-east-1", "ap-northeast-2", "eu-west-1"])).length
      = 2 * 3 * regionalCount ["ec2", "s3"] + 2 * globalCount ["ec2", "s3"] :=
  ⟨by decide,
   (C1_matrix_expansion (fun _ _ _ => .ok [])
     [⟨"111111111111", "arn:aws:iam::111111111111:role/R1", "isms", ""⟩,
      ⟨"222222222222", "arn:aws:iam::222222222222:role/R2", "isms", ""⟩]
     ["ec2", "s3"] ["us-east-1", "ap-northeast-2", "eu-west-1"] (by decide)).1⟩

/-- C2 counterexample: with one account, two configured regions and
ec2 as the only enabled service, setup_services performs two
assume_role invocations for that single account target — one per
constructed unit — not exactly one per target as claimed. -/
theorem C2_counterexample :
    (assume_trace [⟨"111111111111", "arn:aws:iam::111111111111:role/ISMS", "isms", ""⟩]
      ["ec2"] ["us-east-1", "ap-northeast-2"]).length = 2
    ∧ (assume_trace [⟨"111111111111", "arn:aws:iam::111111111111:role/ISMS", "isms", ""⟩]
      ["ec2"] ["us-east-1", "ap-northeast-2"]).length ≠ 1 :=
  ⟨by decide, by decide⟩

/-- C2 amended: the orchestrator invokes assume_role once per
constructed collection unit — G + M * K times per account target, the
number of that account service instances — because setup_service_auth
runs setup_with_role for every instance; each instance builds its
clients from its own freshly delegated credential rather than reusing
a single per-account credential. -/
theorem C2_assume_per_unit (env : SKind → String → String → Except String (List Row))
    (accounts : List AccountTarget) (sel regions : List String) :
    (assume_trace accounts sel regions).length
      = (setup_services env accounts sel regions).length
    ∧ (assume_trace accounts sel regions).length
      = accounts.length * (globalCount sel + regions.length * regionalCount sel) := by
  rw [assume_trace_length, setup_services_length]
  exact ⟨rfl, rfl⟩

/-- C3: a raising unit never aborts the batch — collect_all_data over
any batch containing a failing unit still produces the results of all
units before and after it unchanged, and records for the failing unit
the error dictionary with empty rows, zero count and the error
populated. -/
theorem C3_partial_failure_isolation (pre post : List ServiceInst) (svc : ServiceInst)
    (e : String) (h : svc.client = some (.error e)) :
    collect_all_data (pre ++ svc :: post)
      = collect_all_data pre ++ errorResult svc e :: collect_all_data post
    ∧ (errorResult svc e).data = [] ∧ (errorResult svc e).count = 0
    ∧ (errorResult svc e).error = some e := by
  refine ⟨?_, rfl, rfl, rfl⟩
  induction pre with
  | nil =>
    simp [collect_all_data, get_data_with_metadata, h]
  | cons a rest ih =>
    simp only [List.cons_append, collect_all_data]
    cases get_data_with_metadata a <;> simp [ih]

theorem C3_partial_failure_isolation_witness :
    (⟨.ec2, "ap-northeast-2", "222222222222", some (.error "AccessDenied")⟩ :
        ServiceInst).client = some (.error "AccessDenied")
    ∧ collect_all_data
        ([⟨.s3, "us-east-1", "222222222222", some (.ok [])⟩]
          ++ ⟨.ec2, "ap-northeast-2", "222222222222", some (.error "AccessDenied")⟩
          :: [⟨.rds, "us-east-1", "222222222222", some (.ok [])⟩])
      = collect_all_data [⟨.s3, "us-east-1", "222222222222", some (.ok [])⟩]
        ++ errorResult ⟨.ec2, "ap-northeast-2", "222222222222",
            some (.error "AccessDenied")⟩ "AccessDenied"
        :: collect_all_data [⟨.rds, "us-east-1", "222222222222", some (.ok [])⟩] :=
  ⟨rfl,
   (C3_partial_failure_isolation
     [⟨.s3, "us-east-1", "222222222222", some (.ok [])⟩]
     [⟨.rds, "us-east-1", "222222222222", some (.ok [])⟩]
     ⟨.ec2, "ap-northeast-2", "222222222222", some (.error "AccessDenied")⟩
     "AccessDenied" rfl).1⟩

theorem get_data_ok_shape (svc : ServiceInst) (r : CollectionResult)
    (h : get_data_with_metadata svc = .ok r) :
    r.count = r.data.length ∧ r.error = none
    ∧ r.service = serviceName svc.kind ∧ r.sheet_name = sheetName svc.kind
    ∧ r.region = svc.region ∧ r.account_id = svc.account_id := by
  unfold get_data_with_metadata at h
  cases hc : svc.client with
  | none => rw [hc] at h; simp at h
  | some b =>
    rw [hc] at h
    cases b with
    | error e => simp at h
    | ok rows =>
      simp only [Except.ok.injEq] at h
      rw [← h]
      exact ⟨rfl, rfl, rfl, rfl, rfl, rfl⟩

/-- C9: every CollectionResult aggregated by collect_all_data
satisfies the invariant — count equals the number of rows whenever the
error key is absent, and a failed unit's result has empty rows, count
zero and the error set. -/
theorem C9_result_invariant : ∀ (svcs : List ServiceInst) (r : CollectionResult),
    r ∈ collect_all_data svcs →
    (r.error = none → r.count = r.data.length)
    ∧ (r.error ≠ none → r.data = [] ∧ r.count = 0)
  | [], r, hr => absurd hr (by simp [collect_all_data])
  | svc :: rest, r, hr => by
    unfold collect_all_data at hr
    revert hr
    cases hmeta : get_data_with_metadata svc with
    | ok res =>
      intro hr
      rcases List.mem_cons.mp hr with hhead | htail
      · subst hhead
        obtain ⟨hcount, herr, -⟩ := get_data_ok_shape svc r hmeta
        exact ⟨fun _ => hcount, fun hne => absurd herr hne⟩
      · exact C9_result_invariant rest r htail
    | error e =>
      intro hr
      rcases List.mem_cons.mp hr with hhead | htail
      · subst hhead
        exact ⟨fun hnone => by simp [errorResult] at hnone, fun _ => ⟨rfl, rfl⟩⟩
      · exact C9_result_invariant rest r htail

theorem C9_result_invariant_witness :
    errorResult ⟨.workspaces, "us-east-1", "111111111111", some (.error "boom")⟩ "boom"
      ∈ collect_all_data [⟨.workspaces, "us-east-1", "111111111111", some (.error "boom")⟩]
    ∧ ((errorResult ⟨.workspaces, "us-east-1", "111111111111", some (.error "boom")⟩
          "boom").error = none →
        (errorResult ⟨.workspaces, "us-east-1", "111111111111", some (.error "boom")⟩
          "boom").count
        = (errorResult ⟨.workspaces, "us-east-1", "111111111111", some (.error "boom")⟩
          "boom").data.length)
    ∧ ((errorResult ⟨.workspaces, "us-east-1", "111111111111", some (.error "boom")⟩
          "boom").error ≠ none →
        (errorResult ⟨.workspaces, "us-east-1", "111111111111", some (.error "boom")⟩
          "boom").data = []
        ∧ (errorResult ⟨.workspaces, "us-east-1", "111111111111", some (.error "boom")⟩
          "boom").count = 0) := by
  refine ⟨by decide, ?_⟩
  exact C9_result_invariant
    [⟨.workspaces, "us-east-1", "111111111111", some (.error "boom")⟩]
    (errorResult ⟨.workspaces, "us-east-1", "111111111111", some (.error "boom")⟩ "boom")
    (by decide)

/-- C10: get_data_with_metadata raises before attempting any
collection whenever no client has been configured, and every mapping
it does return carries the instance own identity: its service name,
sheet name, region and account id. -/
theorem C10_metadata_guard (svc : ServiceInst) :
    (svc.client = none → get_data_with_metadata svc
      = .error (serviceName svc.kind ++ " 클라이언트가 설정되지 않았습니다."))
    ∧ (∀ r, get_data_with_metadata svc = .ok r →
        r.service = serviceName svc.kind ∧ r.sheet_name = sheetName svc.kind
        ∧ r.region = svc.region ∧ r.account_id = svc.account_id) := by
  constructor
  · intro hnone
    unfold get_data_with_metadata
    rw [hnone]
  · intro r hr
    obtain ⟨-, -, hrest⟩ := get_data_ok_shape svc r hr
    exact hrest

theorem C10_metadata_guard_witness :
    (⟨.s3, "us-east-1", "111111111111", none⟩ : ServiceInst).client = none
    ∧ get_data_with_metadata (⟨.s3, "us-east-1", "111111111111", none⟩ : ServiceInst)
      = .error (serviceName .s3 ++ " 클라이언트가 설정되지 않았습니다.")
    ∧ (get_data_with_metadata (⟨.ec2, "us-east-1", "111111111111",
          some (.ok [])⟩ : ServiceInst)
        = .ok { service := "ec2", sheet_name := "EC2_Instances", region := "us-east-1",
                account_id := "111111111111", data := [], count := 0, error := none } →
        ({ service := "ec2", sheet_name := "EC2_Instances", region := "us-east-1",
           account_id := "111111111111", data := [], count := 0,
           error := none } : CollectionResult).service = serviceName .ec2) :=
  ⟨rfl,
   (C10_metadata_guard ⟨.s3, "us-east-1", "111111111111", none⟩).1 rfl,
   fun hok => ((C10_metadata_guard ⟨.ec2, "us-east-1", "111111111111", some (.ok [])⟩).2
     _ hok).1⟩
